import Mathlib

/-!
Shallow embedding of the Sora2 video MVP backend (FastAPI service), covering
the job data model (`database.py`), the reconciliation tick (`_poll_once` in
`main.py`), the result-merge policy (`_update_content_metadata`), timestamp
parsing (`_parse_datetime`), and job creation (`create_video`).

Python runtime values that flow through these functions (JSON responses,
nullable columns) are modelled by `PyVal`, with Python truthiness, dict
`.get`, and the `or` operator made explicit.  Code paths that can raise a
Python exception (attribute access on a non-dict, `KeyError`) are modelled
with `Except String`; the transactional scope of a tick (`session_scope`:
commit on success, rollback on any exception) is modelled by `tickDb`.
-/

namespace Sora2

/-- Model of a Python/JSON runtime value as it flows through the backend:
`null` is Python `None`; dicts are association lists (first match wins,
as produced by JSON decoding). -/
inductive PyVal where
  | null
  | bool (b : Bool)
  | int (n : Int)
  | str (s : String)
  | list (xs : List PyVal)
  | dict (fs : List (String × PyVal))
deriving Repr, Inhabited

/-- Python truthiness of a value (`if value:`). -/
def PyVal.truthy : PyVal → Bool
  | .null => false
  | .bool b => b
  | .int n => n != 0
  | .str s => s ≠ ""
  | .list xs => !xs.isEmpty
  | .dict fs => !fs.isEmpty

/-- Dictionary lookup returning `none` when the key is absent
(distinguishing an absent key from a stored JSON `null`). -/
def dlookup (fs : List (String × PyVal)) (k : String) : Option PyVal :=
  (fs.find? (fun p => p.1 = k)).map Prod.snd

/-- Python `d.get(k)`: the stored value, or `None` when absent. -/
def pyGet (fs : List (String × PyVal)) (k : String) : PyVal :=
  (dlookup fs k).getD .null

/-- Python `a or b`. -/
def pyOr (a b : PyVal) : PyVal :=
  if a.truthy then a else b

/-- Python attribute access `.get` is only available on a dict; on any
other value it raises `AttributeError`. -/
def asDict : PyVal → Except String (List (String × PyVal))
  | .dict fs => .ok fs
  | _ => .error "AttributeError"

example : pyOr (.str "") (.str "b") = .str "b" := rfl
example : pyGet [("a", .null)] "a" = PyVal.null := rfl
example : dlookup [("a", .null)] "a" = some PyVal.null := rfl
example : dlookup [("a", .null)] "b" = none := rfl

/-- Python `value is None`. -/
def PyVal.isNull : PyVal → Bool
  | .null => true
  | _ => false

/-- Python `value == s` against a string literal (false on any non-`str`). -/
def PyVal.strEq (v : PyVal) (s : String) : Bool :=
  match v with
  | .str t => t = s
  | _ => false

/-- Row of the `video_jobs` table (`database.py`, class `VideoJob`).
Nullable or dynamically typed columns are `PyVal` (with `.null` for SQL
NULL / Python `None`); datetime columns written only from `datetime`
objects are `Nat` instants (`Option Nat` when nullable). -/
structure VideoJob where
  id : String
  user_id : PyVal
  prompt : String
  sora_job_id : PyVal
  status : PyVal
  error_message : PyVal
  aspect_ratio : PyVal
  duration : PyVal
  format : PyVal
  created_at : Nat
  updated_at : Nat
  content_variant : PyVal
  content_token : PyVal
  content_token_expires_at : Option Nat
  content_ready_at : Option Nat
deriving Repr, Inhabited

/-- Outcome of one `client.retrieve_video` call in `_poll_once`:
a 2xx response with decoded JSON body, an `httpx.HTTPStatusError`
carrying the upstream response text, or an `httpx.RequestError`. -/
inductive FetchResult where
  | ok (response : PyVal)
  | httpError (body : String)
  | netError
deriving Repr, Inhabited

/-- Python `value.endswith("Z")` for a `str`: the last character is `Z`. -/
def pyEndsWithZ (s : String) : Bool :=
  s.data.getLast? = some 'Z'

/-- Python `value[:-1]` for a `str`: drop the last character. -/
def pyDropLast (s : String) : String :=
  ⟨s.data.dropLast⟩

/-- Embedding of `_parse_datetime` (`main.py`).  `fromiso` models
`datetime.fromisoformat`, returning `none` where Python raises
`ValueError` (which the function catches).  A truthy non-string input
raises `AttributeError` at `.endswith`, which is not caught. -/
def parseDatetime (fromiso : String → Option Nat) (value : PyVal) :
    Except String (Option Nat) :=
  if value.truthy then
    match value with
    | .str s =>
        .ok (fromiso (if pyEndsWithZ s then pyDropLast s ++ "+00:00" else s))
    | _ => .error "AttributeError"
  else
    .ok none

/-- Python expression `variants[0] if isinstance(variants, list) and
variants else None` from `_update_content_metadata`. -/
def firstOf (v : PyVal) : PyVal :=
  match v with
  | .list (x :: _) => x
  | _ => .null

/-- Python expression `payload.get("content_variants") or
payload.get("variants") or []` from `_update_content_metadata`. -/
def effVariants (pd : List (String × PyVal)) : PyVal :=
  pyOr (pyGet pd "content_variants") (pyOr (pyGet pd "variants") (.list []))

/-- Variant chosen by `_update_content_metadata`: `payload.get
("default_variant") or payload.get("variant") or (variants[0] ...)`. -/
def chooseVariant (pd : List (String × PyVal)) : PyVal :=
  pyOr (pyGet pd "default_variant")
    (pyOr (pyGet pd "variant") (firstOf (effVariants pd)))

/-- Statements `if variant: job.content_variant = variant / elif
job.content_variant is None: job.content_variant = "source"`. -/
def applyVariant (pd : List (String × PyVal)) (job : VideoJob) : VideoJob :=
  if (chooseVariant pd).truthy then { job with content_variant := chooseVariant pd }
  else if job.content_variant.isNull then
    { job with content_variant := .str "source" }
  else job

/-- Statements `token = payload.get("content_token") or payload.get
("download_token"); if token: job.content_token = token`. -/
def applyToken (pd : List (String × PyVal)) (job : VideoJob) : VideoJob :=
  if (pyOr (pyGet pd "content_token") (pyGet pd "download_token")).truthy then
    { job with content_token := pyOr (pyGet pd "content_token") (pyGet pd "download_token") }
  else job

/-- Statement `if parsed_expires: job.content_token_expires_at =
parsed_expires` (a datetime object is always truthy). -/
def applyExpires (parsed : Option Nat) (job : VideoJob) : VideoJob :=
  match parsed with
  | some d => { job with content_token_expires_at := some d }
  | none => job

/-- Statement `if job.content_ready_at is None: job.content_ready_at =
datetime.utcnow()`. -/
def applyReady (now : Nat) (job : VideoJob) : VideoJob :=
  if job.content_ready_at = none then { job with content_ready_at := some now }
  else job

/-- Embedding of `_update_content_metadata` (`main.py`), taking the
decoded response dict fields; returns the updated job, or the Python
exception escaping the function (the tick's transaction then rolls the
partial mutations back, so the error case carries no job state). -/
def updateContentMetadata (fromiso : String → Option Nat) (now : Nat)
    (job : VideoJob) (fs : List (String × PyVal)) : Except String VideoJob :=
  match asDict (pyOr (pyGet fs "result") (.dict fs)) with
  | .error e => .error e
  | .ok pd =>
    match parseDatetime fromiso
        (pyOr (pyGet pd "content_token_expires_at") (pyGet pd "token_expires_at")) with
    | .error e => .error e
    | .ok parsed =>
      .ok (applyReady now (applyExpires parsed (applyToken pd (applyVariant pd job))))

/-- Embedding of the per-job body of the `for job in jobs` loop of
`_poll_once` (`main.py`).  `fetch` models `client.retrieve_video`
keyed by `job.sora_job_id`; `now` models `datetime.utcnow()`. -/
def pollJob (fromiso : String → Option Nat) (now : Nat)
    (fetch : PyVal → FetchResult) (job : VideoJob) : Except String VideoJob :=
  match fetch job.sora_job_id with
  | .httpError body =>
      .ok { job with
              error_message := .str body
              status := .str "failed"
              updated_at := now }
  | .netError => .ok job
  | .ok response =>
    match asDict response with
    | .error e => .error e
    | .ok fs =>
      let status := (dlookup fs "status").getD job.status
      let job1 := { job with status := status, updated_at := now }
      if status.strEq "completed" then
        updateContentMetadata fromiso now { job1 with error_message := .null } fs
      else if status.strEq "failed" then
        match asDict ((dlookup fs "error").getD (.dict [])) with
        | .error e => .error e
        | .ok ed =>
          .ok { job1 with
                  error_message := pyOr (pyGet ed "message") (.str "Generation failed") }
      else
        .ok { job1 with error_message := .null }

/-- Filter of the tick's query (`_poll_once`):
`VideoJob.status.in_([QUEUED, PROCESSING])`. -/
def isPending (j : VideoJob) : Bool :=
  match j.status with
  | .str s => s = "queued" || s = "processing"
  | _ => false

/-- Sequential `for job in jobs` loop over the tick's working set: the
first uncaught exception aborts the remaining iterations. -/
def runTickLoop (step : VideoJob → Except String VideoJob) :
    List VideoJob → Except String (List VideoJob)
  | [] => .ok []
  | j :: rest =>
    match step j with
    | .error e => .error e
    | .ok j' =>
      match runTickLoop step rest with
      | .error e => .error e
      | .ok rest' => .ok (j' :: rest')

/-- Action of one whole reconciliation tick on the persisted table,
combining `_poll_once` with the `session_scope` transaction semantics
(`database.py`): on success all accumulated updates are committed; any
exception rolls the whole tick back, leaving the table as it was (the
loop in `poll_pending_jobs` logs the exception and keeps running). -/
def tickDb (fromiso : String → Option Nat) (now : Nat)
    (fetch : PyVal → FetchResult) (db : List VideoJob) : List VideoJob :=
  match runTickLoop
      (fun j => if isPending j then pollJob fromiso now fetch j else .ok j) db with
  | .ok db' => db'
  | .error _ => db

/-- Attributes of the request object that `create_video` (`main.py`)
actually reads: `request.prompt`, `request.duration`, `request.format`,
`request.aspect_ratio`, `request.user_id`.  The declared request schema
in `schemas.py` does not define all of these; that mismatch is recorded
separately in the module-name facts below. -/
structure MainCreateRequest where
  prompt : String
  duration : PyVal
  format : PyVal
  aspect_ratio : PyVal
  user_id : PyVal
deriving Repr, Inhabited

/-- Embedding of `aspect_ratio_to_resolution` (`main.py`): `None` maps to
`None`; a known preset string maps to its resolution; anything else maps
to itself (`presets.get(aspect_ratio, aspect_ratio)`). -/
def aspect_ratio_to_resolution (v : PyVal) : PyVal :=
  match v with
  | .null => .null
  | .str "16:9" => .str "1920x1080"
  | .str "9:16" => .str "1080x1920"
  | .str "1:1" => .str "1024x1024"
  | .str "4:3" => .str "1440x1080"
  | x => x

/-- Embedding of the job-row construction in `create_video` (`main.py`,
lines 174-196): given the decoded submit response, build the inserted
`VideoJob` row (or the Python exception raised while building it:
`AttributeError` on a non-dict, `KeyError` on a missing `"id"`).
The row's `error_message` is never assigned, so it is the column
default `None`. -/
def buildCreatedJob (fromiso : String → Option Nat) (now : Nat) (uuid : String)
    (req : MainCreateRequest) (response : PyVal) : Except String VideoJob :=
  match asDict response with
  | .error e => .error e
  | .ok fs =>
    match asDict (pyOr (pyGet fs "result") (.dict fs)) with
    | .error e => .error e
    | .ok pd =>
      let token := pyOr (pyGet pd "content_token") (pyGet pd "download_token")
      match parseDatetime fromiso
          (pyOr (pyGet pd "content_token_expires_at") (pyGet pd "token_expires_at")) with
      | .error e => .error e
      | .ok expiresAt =>
        match dlookup fs "id" with
        | none => .error "KeyError"
        | some sid =>
          .ok { id := uuid
                user_id := pyOr req.user_id (.str "demo-user")
                prompt := req.prompt
                sora_job_id := sid
                status := (dlookup fs "status").getD (.str "queued")
                error_message := .null
                aspect_ratio := req.aspect_ratio
                duration := req.duration
                format := req.format
                created_at := now
                updated_at := now
                content_variant :=
                  if (pyGet fs "status").strEq "completed" then
                    pyGet pd "default_variant"
                  else .null
                content_token := token
                content_token_expires_at := expiresAt
                content_ready_at :=
                  if (pyGet fs "status").strEq "completed" then some now
                  else none }

/-- Field names declared by `CreateVideoRequest` in `schemas.py`. -/
def createVideoRequestFields : List String :=
  ["prompt", "seconds", "size", "user_id"]

/-- Attribute names of the request object read by `create_video` in
`main.py` (lines 159-187). -/
def createVideoAccessedRequestFields : List String :=
  ["prompt", "duration", "format", "aspect_ratio", "user_id"]

/-- Names that `schemas.py` imports from the `database` module. -/
def schemasImportsFromDatabase : List String :=
  ["VideoAsset", "VideoJob"]

/-- Top-level names defined by `database.py`. -/
def databaseModuleNames : List String :=
  ["convention", "metadata", "Base", "VideoStatusEnum", "VideoJob",
   "create_engine_and_session", "init_db", "ensure_content_columns",
   "session_scope"]

/-- Field names of `VideoJobSchema` in `schemas.py` (the response schema
built from an ORM row by `build_job_schema`). -/
def videoJobSchemaFields : List String :=
  ["id", "prompt", "sora_job_id", "status", "error_message", "seconds",
   "size", "created_at", "updated_at", "assets"]

/-- Column names of the ORM `VideoJob` row in `database.py`. -/
def videoJobColumns : List String :=
  ["id", "user_id", "prompt", "sora_job_id", "status", "error_message",
   "aspect_ratio", "duration", "format", "created_at", "updated_at",
   "content_variant", "content_token", "content_token_expires_at",
   "content_ready_at"]

/-- Value of `content_variant` after the variant-choice statements, as a
function of the chosen variant and the prior column value. -/
def variantAfter (pd : List (String × PyVal)) (prior : PyVal) : PyVal :=
  if (chooseVariant pd).truthy then chooseVariant pd
  else if prior.isNull then .str "source" else prior

/-- Value of `content_token` after the token statements. -/
def tokenAfter (pd : List (String × PyVal)) (prior : PyVal) : PyVal :=
  if (pyOr (pyGet pd "content_token") (pyGet pd "download_token")).truthy then
    pyOr (pyGet pd "content_token") (pyGet pd "download_token")
  else prior

/-- Value of `content_token_expires_at` after the expiry statements. -/
def expiresAfter (parsed : Option Nat) (prior : Option Nat) : Option Nat :=
  match parsed with
  | some d => some d
  | none => prior

/-- Value of `content_ready_at` after the ready-timestamp statement. -/
def readyAfter (now : Nat) (prior : Option Nat) : Option Nat :=
  if prior = none then some now else prior

theorem applyVariant_eq (pd : List (String × PyVal)) (job : VideoJob) :
    applyVariant pd job =
      { job with content_variant := variantAfter pd job.content_variant } := by
  unfold applyVariant variantAfter
  split
  · rfl
  · split <;> rfl

theorem applyToken_eq (pd : List (String × PyVal)) (job : VideoJob) :
    applyToken pd job =
      { job with content_token := tokenAfter pd job.content_token } := by
  unfold applyToken tokenAfter
  split <;> rfl

theorem applyExpires_eq (parsed : Option Nat) (job : VideoJob) :
    applyExpires parsed job =
      { job with content_token_expires_at :=
          expiresAfter parsed job.content_token_expires_at } := by
  unfold applyExpires expiresAfter
  split <;> rfl

theorem applyReady_eq (now : Nat) (job : VideoJob) :
    applyReady now job =
      { job with content_ready_at := readyAfter now job.content_ready_at } := by
  unfold applyReady readyAfter
  split <;> rfl

/-- Full characterization of a successful `_update_content_metadata` run:
only the four content columns change, each according to its statement. -/
theorem updateContentMetadata_eq (fromiso : String → Option Nat) (now : Nat)
    (job : VideoJob) (fs : List (String × PyVal))
    (pd : List (String × PyVal)) (parsed : Option Nat)
    (h1 : asDict (pyOr (pyGet fs "result") (.dict fs)) = .ok pd)
    (h2 : parseDatetime fromiso
        (pyOr (pyGet pd "content_token_expires_at") (pyGet pd "token_expires_at")) =
        .ok parsed) :
    updateContentMetadata fromiso now job fs =
      .ok { job with
              content_variant := variantAfter pd job.content_variant
              content_token := tokenAfter pd job.content_token
              content_token_expires_at :=
                expiresAfter parsed job.content_token_expires_at
              content_ready_at := readyAfter now job.content_ready_at } := by
  unfold updateContentMetadata
  simp only [h1, h2]
  simp [applyVariant_eq, applyToken_eq, applyExpires_eq, applyReady_eq]

/-- A job whose status passes the tick's query filter has a string status
equal to `"queued"` or `"processing"`. -/
theorem isPending_cases (j : VideoJob) (h : isPending j = true) :
    ∃ s, j.status = .str s ∧ (s = "queued" ∨ s = "processing") := by
  unfold isPending at h
  cases hs : j.status <;> rw [hs] at h <;> simp_all

theorem runTickLoop_ok_length (step : VideoJob → Except String VideoJob) :
    ∀ (db db' : List VideoJob), runTickLoop step db = .ok db' →
      db'.length = db.length := by
  intro db
  induction db with
  | nil => intro db' h; simp only [runTickLoop] at h; cases h; rfl
  | cons j rest ih =>
    intro db' h
    simp only [runTickLoop] at h
    cases hs : step j with
    | error e => rw [hs] at h; cases h
    | ok j' =>
      rw [hs] at h
      cases hr : runTickLoop step rest with
      | error e => rw [hr] at h; cases h
      | ok rest' =>
        rw [hr] at h
        cases h
        simp [ih rest' hr]

theorem runTickLoop_ok_getD (step : VideoJob → Except String VideoJob)
    (d : VideoJob) :
    ∀ (db db' : List VideoJob), runTickLoop step db = .ok db' →
      ∀ i, i < db.length → step (db.getD i d) = .ok (db'.getD i d) := by
  intro db
  induction db with
  | nil => intro db' h i hi; simp at hi
  | cons j rest ih =>
    intro db' h i hi
    simp only [runTickLoop] at h
    cases hs : step j with
    | error e => rw [hs] at h; cases h
    | ok j' =>
      rw [hs] at h
      cases hr : runTickLoop step rest with
      | error e => rw [hr] at h; cases h
      | ok rest' =>
        rw [hr] at h
        cases h
        cases i with
        | zero => simpa using hs
        | succ n =>
          simp only [List.getD_cons_succ]
          exact ih rest' hr n (by simpa using hi)

theorem runTickLoop_error_of_mem (step : VideoJob → Except String VideoJob)
    (j : VideoJob) (e : String) :
    ∀ db : List VideoJob, j ∈ db → step j = .error e →
      ∃ e', runTickLoop step db = .error e' := by
  intro db
  induction db with
  | nil => intro hmem; cases hmem
  | cons k rest ih =>
    intro hmem hstep
    simp only [runTickLoop]
    cases hs : step k with
    | error e0 => exact ⟨e0, rfl⟩
    | ok k' =>
      rcases List.mem_cons.mp hmem with hjk | hjrest
      · subst hjk; rw [hstep] at hs; cases hs
      · rcases ih hjrest hstep with ⟨e', he'⟩
        rw [he']
        exact ⟨e', rfl⟩

theorem runTickLoop_ok_of_all (step : VideoJob → Except String VideoJob) :
    ∀ db : List VideoJob, (∀ j ∈ db, ∃ j', step j = .ok j') →
      ∃ db', runTickLoop step db = .ok db' := by
  intro db
  induction db with
  | nil => intro _; exact ⟨[], rfl⟩
  | cons k rest ih =>
    intro hall
    rcases hall k (List.mem_cons_self k rest) with ⟨k', hk'⟩
    rcases ih (fun j hj => hall j (List.mem_cons_of_mem k hj)) with ⟨rest', hrest'⟩
    refine ⟨k' :: rest', ?_⟩
    simp only [runTickLoop]
    rw [hk', hrest']

/-- Inversion of a successful `_update_content_metadata` run: the payload
dict and parsed expiry exist, and the result row changes exactly the four
content columns. -/
theorem updateContentMetadata_ok_elim (fromiso : String → Option Nat)
    (now : Nat) (job : VideoJob) (fs : List (String × PyVal)) (j' : VideoJob)
    (h : updateContentMetadata fromiso now job fs = .ok j') :
    ∃ pd parsed,
      asDict (pyOr (pyGet fs "result") (.dict fs)) = .ok pd ∧
      parseDatetime fromiso
        (pyOr (pyGet pd "content_token_expires_at") (pyGet pd "token_expires_at")) =
        .ok parsed ∧
      j' = { job with
               content_variant := variantAfter pd job.content_variant
               content_token := tokenAfter pd job.content_token
               content_token_expires_at :=
                 expiresAfter parsed job.content_token_expires_at
               content_ready_at := readyAfter now job.content_ready_at } := by
  cases h1 : asDict (pyOr (pyGet fs "result") (.dict fs)) with
  | error e =>
    simp only [updateContentMetadata, h1] at h
    exact Except.noConfusion h
  | ok pd =>
    cases h2 : parseDatetime fromiso
        (pyOr (pyGet pd "content_token_expires_at") (pyGet pd "token_expires_at")) with
    | error e =>
      simp only [updateContentMetadata, h1, h2] at h
      exact Except.noConfusion h
    | ok parsed =>
      rw [updateContentMetadata_eq fromiso now job fs pd parsed h1 h2] at h
      injection h with h
      exact ⟨pd, parsed, rfl, h2, h.symm⟩

/-- Sample persisted row used to instantiate witnesses: a freshly created
queued job. -/
def sampleJob : VideoJob :=
  { id := "local-1"
    user_id := .str "demo-user"
    prompt := "two words"
    sora_job_id := .str "remote-1"
    status := .str "queued"
    error_message := .null
    aspect_ratio := .null
    duration := .null
    format := .null
    created_at := 0
    updated_at := 0
    content_variant := .null
    content_token := .null
    content_token_expires_at := none
    content_ready_at := none }

/-- C3: when the status fetch for a job fails with a network/transport
error (`httpx.RequestError`), the tick leaves every field of that job
unchanged — no status, error_message, or updated_at write — and the
loop body returns normally, continuing with the remaining jobs. -/
theorem c3_network_error_leaves_job_unchanged
    (fromiso : String → Option Nat) (now : Nat) (fetch : PyVal → FetchResult)
    (job : VideoJob) (h : fetch job.sora_job_id = .netError) :
    pollJob fromiso now fetch job = .ok job := by
  unfold pollJob
  rw [h]

/-- Witness for C3 at a concrete queued job under a fetch that always
fails with a network error. -/
theorem c3_witness :
    pollJob (fun _ => none) 7 (fun _ => .netError) sampleJob = .ok sampleJob :=
  c3_network_error_leaves_job_unchanged (fun _ => none) 7 (fun _ => .netError)
    sampleJob rfl

/-- C2: when the status fetch for job J fails with an upstream non-2xx
error, the tick sets J's status to FAILED, sets its error_message to the
upstream response body, refreshes updated_at, and changes nothing else on
J; moreover the outcome of the loop body for any job depends only on the
fetch result for that job's own remote id, so J's failure leaves every
other job's update (in particular its status) untouched. -/
theorem c2_upstream_error_marks_failed
    (fromiso : String → Option Nat) (now : Nat) (fetch : PyVal → FetchResult)
    (job : VideoJob) (body : String)
    (h : fetch job.sora_job_id = .httpError body) :
    pollJob fromiso now fetch job =
      .ok { job with
              error_message := .str body
              status := .str "failed"
              updated_at := now } ∧
    ∀ (fetch2 : PyVal → FetchResult) (other : VideoJob),
      fetch2 other.sora_job_id = fetch other.sora_job_id →
      pollJob fromiso now fetch2 other = pollJob fromiso now fetch other := by
  constructor
  · unfold pollJob
    rw [h]
  · intro fetch2 other hagree
    unfold pollJob
    rw [hagree]

/-- Witness for C2 at a concrete queued job whose fetch returns an
upstream 500 body. -/
theorem c2_witness :
    pollJob (fun _ => none) 7 (fun _ => .httpError "boom") sampleJob =
      .ok { sampleJob with
              error_message := .str "boom"
              status := .str "failed"
              updated_at := 7 } :=
  (c2_upstream_error_marks_failed (fun _ => none) 7 (fun _ => .httpError "boom")
    sampleJob "boom" rfl).1

/-- C7: `content_ready_at` is written only when it is currently null (the
first completion observed sets it to the current time); once set, neither
a later result merge nor any other loop-body path ever overwrites it. -/
theorem c7_ready_timestamp_set_once
    (fromiso : String → Option Nat) (now : Nat) (job : VideoJob)
    (fs : List (String × PyVal)) :
    (∀ j', updateContentMetadata fromiso now job fs = .ok j' →
      (job.content_ready_at = none → j'.content_ready_at = some now) ∧
      ∀ t, job.content_ready_at = some t → j'.content_ready_at = some t) ∧
    ∀ (fetch : PyVal → FetchResult) (j2 : VideoJob),
      pollJob fromiso now fetch job = .ok j2 →
      ∀ t, job.content_ready_at = some t → j2.content_ready_at = some t := by
  constructor
  · intro j' h
    obtain ⟨pd, parsed, _, _, hj'⟩ :=
      updateContentMetadata_ok_elim fromiso now job fs j' h
    subst hj'
    constructor
    · intro hnone
      simp [readyAfter, hnone]
    · intro t ht
      simp [readyAfter, ht]
  · intro fetch j2 h t ht
    unfold pollJob at h
    cases hf : fetch job.sora_job_id with
    | httpError body =>
      simp only [hf] at h
      cases h
      simpa using ht
    | netError =>
      simp only [hf] at h
      cases h
      exact ht
    | ok response =>
      simp only [hf] at h
      cases hd : asDict response with
      | error e =>
        simp only [hd] at h
        exact Except.noConfusion h
      | ok gs =>
        simp only [hd] at h
        cases hc : ((dlookup gs "status").getD job.status).strEq "completed" with
        | true =>
          simp only [hc, if_true] at h
          obtain ⟨pd, parsed, _, _, hj2⟩ :=
            updateContentMetadata_ok_elim fromiso now _ gs j2 h
          subst hj2
          simp [readyAfter, ht]
        | false =>
          simp only [hc, Bool.false_eq_true, if_false] at h
          cases hfl : ((dlookup gs "status").getD job.status).strEq "failed" with
          | true =>
            simp only [hfl, if_true] at h
            cases he : asDict ((dlookup gs "error").getD (.dict [])) with
            | error e =>
              simp only [he] at h
              exact Except.noConfusion h
            | ok ed =>
              simp only [he] at h
              cases h
              simpa using ht
          | false =>
            simp only [hfl, Bool.false_eq_true, if_false] at h
            cases h
            simpa using ht

/-- Witness for C7: a job that already recorded its ready timestamp at 3
goes through a later completion merge at time 9 and keeps the value 3. -/
theorem c7_witness :
    updateContentMetadata (fun _ => none) 9
        { sampleJob with content_ready_at := some 3, content_variant := .str "hd" }
        [] =
      .ok { sampleJob with content_ready_at := some 3, content_variant := .str "hd" } ∧
    ({ sampleJob with content_ready_at := some 3, content_variant := .str "hd" } :
        VideoJob).content_ready_at = some 3 :=
  ⟨rfl,
    ((c7_ready_timestamp_set_once (fun _ => none) 9
        { sampleJob with content_ready_at := some 3, content_variant := .str "hd" }
        []).1
      { sampleJob with content_ready_at := some 3, content_variant := .str "hd" }
      rfl).2 3 rfl⟩

/-- C10: a successful status response with no `"status"` field leaves the
job's previous status in place, but still refreshes `updated_at` and
clears `error_message`, because the retained QUEUED/PROCESSING status
falls into the non-completed, non-failed branch. -/
theorem c10_missing_status_field
    (fromiso : String → Option Nat) (now : Nat) (fetch : PyVal → FetchResult)
    (job : VideoJob) (fs : List (String × PyVal))
    (hpend : isPending job = true)
    (hfetch : fetch job.sora_job_id = .ok (.dict fs))
    (hnostatus : dlookup fs "status" = none) :
    pollJob fromiso now fetch job =
      .ok { job with updated_at := now, error_message := .null } := by
  obtain ⟨s, hst, hqp⟩ := isPending_cases job hpend
  unfold pollJob
  simp only [hfetch, asDict, hnostatus, Option.getD_none]
  rw [hst]
  rcases hqp with h | h <;> subst h <;> simp [PyVal.strEq]

/-- Witness for C10: a queued job polled with a response carrying only a
progress field retains its status but gets a fresh `updated_at`. -/
theorem c10_witness :
    isPending sampleJob = true ∧
    pollJob (fun _ => none) 7 (fun _ => .ok (.dict [("progress", .int 50)]))
        sampleJob =
      .ok { sampleJob with updated_at := 7, error_message := .null } :=
  ⟨rfl,
    c10_missing_status_field (fun _ => none) 7
      (fun _ => .ok (.dict [("progress", .int 50)])) sampleJob
      [("progress", .int 50)] rfl rfl rfl⟩

/-- C5: on merging a completed response whose effective payload is the
response itself, the stored `content_variant` is chosen in order of
preference from the truthy `default_variant` field, then the truthy
`variant` field, then the first entry of the variants list; when the
chosen variant is not truthy, a null prior value becomes the fixed
default `"source"` and a non-null prior value is kept. -/
theorem c5_variant_preference
    (fromiso : String → Option Nat) (now : Nat) (job : VideoJob)
    (fs : List (String × PyVal)) (j' : VideoJob)
    (hok : updateContentMetadata fromiso now job fs = .ok j')
    (hres : (pyGet fs "result").truthy = false) :
    ((pyGet fs "default_variant").truthy = true →
      j'.content_variant = pyGet fs "default_variant") ∧
    ((pyGet fs "default_variant").truthy = false →
      (pyGet fs "variant").truthy = true →
      j'.content_variant = pyGet fs "variant") ∧
    ((pyGet fs "default_variant").truthy = false →
      (pyGet fs "variant").truthy = false →
      (firstOf (effVariants fs)).truthy = true →
      j'.content_variant = firstOf (effVariants fs)) ∧
    ((chooseVariant fs).truthy = false → job.content_variant = .null →
      j'.content_variant = .str "source") ∧
    ((chooseVariant fs).truthy = false → job.content_variant.isNull = false →
      j'.content_variant = job.content_variant) := by
  obtain ⟨pd, parsed, h1, _, hj'⟩ :=
    updateContentMetadata_ok_elim fromiso now job fs j' hok
  have hpd : pd = fs := by
    rw [pyOr, hres] at h1
    simp only [Bool.false_eq_true, if_false, asDict] at h1
    injection h1 with h1
    exact h1.symm
  subst hpd
  subst hj'
  refine ⟨?_, ?_, ?_, ?_, ?_⟩
  · intro hdv
    simp [variantAfter, chooseVariant, pyOr, hdv]
  · intro hdv hv
    simp [variantAfter, chooseVariant, pyOr, hdv, hv]
  · intro hdv hv hfirst
    simp [variantAfter, chooseVariant, pyOr, hdv, hv, hfirst]
  · intro hcv hprior
    simp [variantAfter, hcv, hprior, PyVal.isNull]
  · intro hcv hprior
    simp [variantAfter, hcv, hprior]

/-- Witness for C5: a payload with `default_variant: "hd"` and no prior
variant yields `"hd"`; an empty payload with no prior variant yields
`"source"`. -/
theorem c5_witness :
    updateContentMetadata (fun _ => none) 9 sampleJob
        [("default_variant", PyVal.str "hd")] =
      .ok { sampleJob with content_variant := .str "hd",
                           content_ready_at := some 9 } ∧
    ({ sampleJob with content_variant := .str "hd",
                      content_ready_at := some 9 } : VideoJob).content_variant =
      pyGet [("default_variant", PyVal.str "hd")] "default_variant" ∧
    updateContentMetadata (fun _ => none) 9 sampleJob [] =
      .ok { sampleJob with content_variant := .str "source",
                           content_ready_at := some 9 } ∧
    ({ sampleJob with content_variant := .str "source",
                      content_ready_at := some 9 } : VideoJob).content_variant =
      PyVal.str "source" :=
  ⟨rfl,
    (c5_variant_preference (fun _ => none) 9 sampleJob
        [("default_variant", PyVal.str "hd")]
        { sampleJob with content_variant := .str "hd",
                         content_ready_at := some 9 } rfl rfl).1 rfl,
    rfl,
    (c5_variant_preference (fun _ => none) 9 sampleJob []
        { sampleJob with content_variant := .str "source",
                         content_ready_at := some 9 } rfl rfl).2.2.2.1 rfl rfl⟩

/-- C6: for any underlying ISO-8601 parser, a token-expiry string ending
in `"Z"` parses (through `_parse_datetime`) to the same instant as the
equivalent string with the trailing `"Z"` replaced by an explicit
`"+00:00"` offset; and whenever the merge's effective expiry value
parses to nothing (absent, null, or malformed and rejected by the
parser), the job's previously stored expiry value is left unchanged and
no error is raised. -/
theorem c6_expiry_parse_normalization (fromiso : String → Option Nat) :
    (∀ s : String, pyEndsWithZ s = true →
      parseDatetime fromiso (.str s) =
        parseDatetime fromiso (.str (pyDropLast s ++ "+00:00"))) ∧
    (∀ (now : Nat) (job : VideoJob) (fs pd : List (String × PyVal))
        (j' : VideoJob),
      updateContentMetadata fromiso now job fs = .ok j' →
      asDict (pyOr (pyGet fs "result") (.dict fs)) = .ok pd →
      parseDatetime fromiso
          (pyOr (pyGet pd "content_token_expires_at")
            (pyGet pd "token_expires_at")) = .ok none →
      j'.content_token_expires_at = job.content_token_expires_at) := by
  constructor
  · intro s hz
    have hsne : s ≠ "" := by
      intro hs
      rw [hs] at hz
      simp [pyEndsWithZ] at hz
    have hdata : (pyDropLast s ++ "+00:00").data =
        s.data.dropLast ++ ("+00:00").data := by
      rw [String.data_append]
      rfl
    have hne2 : pyDropLast s ++ "+00:00" ≠ "" := by
      intro hcontra
      have : (pyDropLast s ++ "+00:00").data = [] := by rw [hcontra]
      rw [hdata] at this
      simp at this
    have hz2 : pyEndsWithZ (pyDropLast s ++ "+00:00") = false := by
      unfold pyEndsWithZ
      rw [hdata]
      rw [List.getLast?_append_of_ne_nil _ (by simp : ("+00:00").data ≠ [])]
      simp
    unfold parseDatetime
    simp [PyVal.truthy, hz, hz2, hsne, hne2]
  · intro now job fs pd j' hok h1 hparse
    obtain ⟨pd2, parsed2, h1b, h2b, hj'⟩ :=
      updateContentMetadata_ok_elim fromiso now job fs j' hok
    rw [h1] at h1b
    injection h1b with h1b
    subst h1b
    rw [hparse] at h2b
    injection h2b with h2b
    subst h2b
    subst hj'
    simp [expiresAfter]

/-- Witness for C6: under a parser accepting exactly one explicit-offset
string, the `"Z"` form of that timestamp parses identically, and a
malformed expiry string in a merge leaves the stored expiry 55 intact. -/
theorem c6_witness :
    pyEndsWithZ "2024-01-02T03:04:05Z" = true ∧
    parseDatetime
        (fun s => if s = "2024-01-02T03:04:05+00:00" then some 123 else none)
        (.str "2024-01-02T03:04:05Z") =
      parseDatetime
        (fun s => if s = "2024-01-02T03:04:05+00:00" then some 123 else none)
        (.str (pyDropLast "2024-01-02T03:04:05Z" ++ "+00:00")) ∧
    parseDatetime
        (fun s => if s = "2024-01-02T03:04:05+00:00" then some 123 else none)
        (.str "2024-01-02T03:04:05Z") = .ok (some 123) ∧
    updateContentMetadata
        (fun s => if s = "2024-01-02T03:04:05+00:00" then some 123 else none) 9
        { sampleJob with content_token_expires_at := some 55,
                         content_variant := .str "hd" }
        [("token_expires_at", PyVal.str "garbage")] =
      .ok { sampleJob with content_token_expires_at := some 55,
                           content_variant := .str "hd",
                           content_ready_at := some 9 } ∧
    ({ sampleJob with content_token_expires_at := some 55,
                      content_variant := .str "hd",
                      content_ready_at := some 9 } : VideoJob).content_token_expires_at =
      ({ sampleJob with content_token_expires_at := some 55,
                        content_variant := .str "hd" } : VideoJob).content_token_expires_at :=
  ⟨rfl,
    (c6_expiry_parse_normalization
        (fun s => if s = "2024-01-02T03:04:05+00:00" then some 123 else none)).1
      "2024-01-02T03:04:05Z" rfl,
    rfl,
    rfl,
    (c6_expiry_parse_normalization
        (fun s => if s = "2024-01-02T03:04:05+00:00" then some 123 else none)).2
      9
      { sampleJob with content_token_expires_at := some 55,
                       content_variant := .str "hd" }
      [("token_expires_at", PyVal.str "garbage")]
      [("token_expires_at", PyVal.str "garbage")]
      { sampleJob with content_token_expires_at := some 55,
                       content_variant := .str "hd",
                       content_ready_at := some 9 }
      rfl rfl rfl⟩

/-- C1 counterexample: a queued job (so it is loaded by the tick) whose
successful status fetch reports `"queued"` again has `"queued"` written
back by the tick — not one of PROCESSING, COMPLETED, or FAILED as the
claim requires. -/
theorem c1_counterexample :
    isPending sampleJob = true ∧
    pollJob (fun _ => none) 5
        (fun _ => .ok (.dict [("status", PyVal.str "queued")])) sampleJob =
      .ok { sampleJob with status := .str "queued", updated_at := 5,
                           error_message := .null } ∧
    PyVal.str "queued" ≠ PyVal.str "processing" ∧
    PyVal.str "queued" ≠ PyVal.str "completed" ∧
    PyVal.str "queued" ≠ PyVal.str "failed" := by
  refine ⟨rfl, rfl, ?_, ?_, ?_⟩ <;>
    · intro h
      injection h with h
      exact absurd h (by decide)

/-- C1 amended: a job whose stored status is COMPLETED or FAILED (indeed
any job not passing the QUEUED/PROCESSING filter) is never mutated by a
later tick; but on a successful fetch the tick writes back the
response's status verbatim — defaulting to the stored status when the
field is absent — which need not be PROCESSING, COMPLETED, or FAILED. -/
theorem c1_amended_status_transitions
    (fromiso : String → Option Nat) (now : Nat) (fetch : PyVal → FetchResult)
    (db : List VideoJob) :
    ((tickDb fromiso now fetch db).length = db.length ∧
      ∀ i, i < db.length → isPending (db.getD i default) = false →
        (tickDb fromiso now fetch db).getD i default = db.getD i default) ∧
    (∀ (job j' : VideoJob) (fs : List (String × PyVal)),
      fetch job.sora_job_id = .ok (.dict fs) →
      pollJob fromiso now fetch job = .ok j' →
      j'.status = (dlookup fs "status").getD job.status) := by
  constructor
  · unfold tickDb
    cases hrun : runTickLoop
        (fun j => if isPending j then pollJob fromiso now fetch j else .ok j) db with
    | error e => exact ⟨rfl, fun i _ _ => rfl⟩
    | ok db' =>
      refine ⟨runTickLoop_ok_length _ db db' hrun, ?_⟩
      intro i hi hnp
      have hstep := runTickLoop_ok_getD _ default db db' hrun i hi
      rw [hnp] at hstep
      simp only [Bool.false_eq_true, if_false] at hstep
      injection hstep with hstep
      exact hstep.symm
  · intro job j' fs hfetch hpoll
    unfold pollJob at hpoll
    simp only [hfetch, asDict] at hpoll
    cases hc : ((dlookup fs "status").getD job.status).strEq "completed" with
    | true =>
      simp only [hc, if_true] at hpoll
      obtain ⟨pd, parsed, _, _, hj'⟩ :=
        updateContentMetadata_ok_elim fromiso now _ fs j' hpoll
      subst hj'
      rfl
    | false =>
      simp only [hc, Bool.false_eq_true, if_false] at hpoll
      cases hfl : ((dlookup fs "status").getD job.status).strEq "failed" with
      | true =>
        simp only [hfl, if_true] at hpoll
        split at hpoll
        · exact Except.noConfusion hpoll
        · cases hpoll
          rfl
      | false =>
        simp only [hfl, Bool.false_eq_true, if_false] at hpoll
        cases hpoll
        rfl

/-- Witness for C1's amended statement: a two-row table where the first
row is already failed and stays untouched while the second, queued row is
polled; and the status written for the queued row equals the response's
status field. -/
theorem c1_amended_witness :
    isPending { sampleJob with id := "local-0", status := .str "failed",
                               error_message := .str "old" } = false ∧
    (tickDb (fun _ => none) 5
        (fun _ => .ok (.dict [("status", PyVal.str "processing")]))
        [{ sampleJob with id := "local-0", status := .str "failed",
                          error_message := .str "old" },
         sampleJob]).getD 0 default =
      ([{ sampleJob with id := "local-0", status := .str "failed",
                         error_message := .str "old" },
         sampleJob] : List VideoJob).getD 0 default ∧
    pollJob (fun _ => none) 5
        (fun _ => .ok (.dict [("status", PyVal.str "processing")])) sampleJob =
      .ok { sampleJob with status := .str "processing", updated_at := 5,
                           error_message := .null } ∧
    ({ sampleJob with status := .str "processing", updated_at := 5,
                      error_message := .null } : VideoJob).status =
      (dlookup [("status", PyVal.str "processing")] "status").getD
        sampleJob.status :=
  ⟨rfl,
    ((c1_amended_status_transitions (fun _ => none) 5
        (fun _ => .ok (.dict [("status", PyVal.str "processing")]))
        [{ sampleJob with id := "local-0", status := .str "failed",
                          error_message := .str "old" },
         sampleJob]).1).2 0 (by decide) rfl,
    rfl,
    ((c1_amended_status_transitions (fun _ => none) 5
        (fun _ => .ok (.dict [("status", PyVal.str "processing")]))
        [{ sampleJob with id := "local-0", status := .str "failed",
                          error_message := .str "old" },
         sampleJob]).2) sampleJob
      { sampleJob with status := .str "processing", updated_at := 5,
                       error_message := .null }
      [("status", PyVal.str "processing")] rfl rfl⟩

theorem truthy_ne_null {v : PyVal} (h : v.truthy = true) : v ≠ PyVal.null := by
  intro hv
  rw [hv] at h
  simp [PyVal.truthy] at h

theorem strEq_true_eq {v : PyVal} {t : String} (h : v.strEq t = true) :
    v = .str t := by
  cases v with
  | str s =>
    simp only [PyVal.strEq, decide_eq_true_eq] at h
    rw [h]
  | null => exact absurd h (by simp [PyVal.strEq])
  | bool b => exact absurd h (by simp [PyVal.strEq])
  | int n => exact absurd h (by simp [PyVal.strEq])
  | list xs => exact absurd h (by simp [PyVal.strEq])
  | dict gs => exact absurd h (by simp [PyVal.strEq])

theorem strEq_false_ne {v : PyVal} {t : String} (h : v.strEq t = false) :
    v ≠ .str t := by
  intro hv
  rw [hv] at h
  simp [PyVal.strEq] at h

theorem pyOr_str_ne_null (x : PyVal) (d : String) :
    pyOr x (.str d) ≠ PyVal.null := by
  unfold pyOr
  split
  · exact truthy_ne_null (by assumption)
  · intro h
    exact PyVal.noConfusion h

/-- C4 counterexample: a submit response that reports status `"failed"`
produces a created job whose status is FAILED while its `error_message`
is null (`create_video` never assigns the column), violating the claimed
equivalence at creation time. -/
theorem c4_counterexample :
    buildCreatedJob (fun _ => none) 0 "local-1"
        { prompt := "two words", duration := .null, format := .null,
          aspect_ratio := .null, user_id := .null }
        (.dict [("id", PyVal.str "remote-1"), ("status", PyVal.str "failed")]) =
      .ok { sampleJob with status := .str "failed" } ∧
    ({ sampleJob with status := .str "failed" } : VideoJob).status =
      PyVal.str "failed" ∧
    ({ sampleJob with status := .str "failed" } : VideoJob).error_message =
      PyVal.null := by
  exact ⟨rfl, rfl, rfl⟩

/-- C4 amended: after every loop-body mutation of the reconciliation tick
(upstream error or successful fetch), `error_message` is non-null exactly
when the written status is FAILED; job creation, however, always leaves
`error_message` null, so at creation the equivalence holds only when the
submit response's status is not `"failed"`. -/
theorem c4_amended_error_message_iff
    (fromiso : String → Option Nat) (now : Nat) (fetch : PyVal → FetchResult) :
    (∀ (job j' : VideoJob),
      fetch job.sora_job_id ≠ .netError →
      pollJob fromiso now fetch job = .ok j' →
      (¬ j'.error_message = PyVal.null ↔ j'.status = PyVal.str "failed")) ∧
    (∀ (uuid : String) (req : MainCreateRequest) (response : PyVal)
        (j' : VideoJob),
      buildCreatedJob fromiso now uuid req response = .ok j' →
      j'.error_message = PyVal.null) := by
  constructor
  · intro job j' hne hpoll
    unfold pollJob at hpoll
    cases hf : fetch job.sora_job_id with
    | netError => exact absurd hf hne
    | httpError body =>
      simp only [hf] at hpoll
      cases hpoll
      constructor
      · intro _
        rfl
      · intro _ hb
        exact PyVal.noConfusion hb
    | ok response =>
      simp only [hf] at hpoll
      cases hd : asDict response with
      | error e =>
        simp only [hd] at hpoll
        exact Except.noConfusion hpoll
      | ok fs =>
        simp only [hd] at hpoll
        cases hc : ((dlookup fs "status").getD job.status).strEq "completed" with
        | true =>
          simp only [hc, if_true] at hpoll
          obtain ⟨pd, parsed, _, _, hj'⟩ :=
            updateContentMetadata_ok_elim fromiso now _ fs j' hpoll
          subst hj'
          constructor
          · intro habs
            exact absurd rfl habs
          · intro hst
            have := strEq_true_eq hc
            rw [this] at hst
            injection hst with hst
            exact absurd hst (by decide)
        | false =>
          simp only [hc, Bool.false_eq_true, if_false] at hpoll
          cases hfl : ((dlookup fs "status").getD job.status).strEq "failed" with
          | true =>
            simp only [hfl, if_true] at hpoll
            split at hpoll
            · exact Except.noConfusion hpoll
            · cases hpoll
              constructor
              · intro _
                exact strEq_true_eq hfl
              · intro _
                exact pyOr_str_ne_null _ _
          | false =>
            simp only [hfl, Bool.false_eq_true, if_false] at hpoll
            cases hpoll
            constructor
            · intro habs
              exact absurd rfl habs
            · intro hst
              exact absurd hst (strEq_false_ne hfl)
  · intro uuid req response j' h
    unfold buildCreatedJob at h
    split at h
    · exact Except.noConfusion h
    · split at h
      · exact Except.noConfusion h
      · split at h
        · exact Except.noConfusion h
        · split at h
          · exact Except.noConfusion h
          · cases h
            rfl

/-- Witness for C4's amended statement: an upstream-failed poll satisfies
the equivalence, and a freshly created job always has a null
error_message. -/
theorem c4_amended_witness :
    pollJob (fun _ => none) 7 (fun _ => .httpError "boom") sampleJob =
      .ok { sampleJob with error_message := .str "boom",
                           status := .str "failed", updated_at := 7 } ∧
    (¬ ({ sampleJob with error_message := .str "boom",
                         status := .str "failed",
                         updated_at := 7 } : VideoJob).error_message =
        PyVal.null ↔
      ({ sampleJob with error_message := .str "boom",
                        status := .str "failed",
                        updated_at := 7 } : VideoJob).status =
        PyVal.str "failed") ∧
    ({ sampleJob with status := .str "failed" } : VideoJob).error_message =
      PyVal.null :=
  ⟨rfl,
    (c4_amended_error_message_iff (fun _ => none) 7
        (fun _ => .httpError "boom")).1 sampleJob
      { sampleJob with error_message := .str "boom",
                       status := .str "failed", updated_at := 7 }
      (fun h => FetchResult.noConfusion h) rfl,
    (c4_amended_error_message_iff (fun _ => none) 0
        (fun _ => .httpError "boom")).2 "local-1"
      { prompt := "two words", duration := .null, format := .null,
        aspect_ratio := .null, user_id := .null }
      (.dict [("id", PyVal.str "remote-1"), ("status", PyVal.str "failed")])
      { sampleJob with status := .str "failed" } rfl⟩

/-- C9: the tick's datastore writes are all-or-nothing.  If processing
any loaded (pending) job raises, the whole tick's writes are rolled back
and every row — including rows already updated earlier in the loop — is
left exactly as it was, while the tick itself still returns a table (the
polling loop logs and keeps running); if no job raises, the loop commits
the full list of accumulated updates at the end of its transactional
scope. -/
theorem c9_tick_atomicity
    (fromiso : String → Option Nat) (now : Nat) (fetch : PyVal → FetchResult)
    (db : List VideoJob) :
    ((∃ j, j ∈ db ∧ isPending j = true ∧
        ∃ e, pollJob fromiso now fetch j = .error e) →
      tickDb fromiso now fetch db = db) ∧
    ((∀ j, j ∈ db → isPending j = true →
        ∃ j', pollJob fromiso now fetch j = .ok j') →
      runTickLoop
          (fun j => if isPending j then pollJob fromiso now fetch j else .ok j)
          db =
        .ok (tickDb fromiso now fetch db)) := by
  constructor
  · rintro ⟨j, hmem, hpend, e, herr⟩
    have hstep :
        (fun k => if isPending k then pollJob fromiso now fetch k else .ok k) j =
          .error e := by
      simp only [hpend, if_true, herr]
    obtain ⟨e', he'⟩ := runTickLoop_error_of_mem
      (fun k => if isPending k then pollJob fromiso now fetch k else .ok k)
      j e db hmem hstep
    unfold tickDb
    rw [he']
  · intro hall
    have hok : ∀ j ∈ db,
        ∃ j', (fun k => if isPending k then pollJob fromiso now fetch k
                        else .ok k) j = .ok j' := by
      intro j hj
      cases hp : isPending j with
      | true =>
        obtain ⟨j', hj'⟩ := hall j hj hp
        exact ⟨j', by simp only [hp, if_true, hj']⟩
      | false => exact ⟨j, by simp only [hp, Bool.false_eq_true, if_false]⟩
    obtain ⟨db', hdb'⟩ := runTickLoop_ok_of_all _ db hok
    unfold tickDb
    rw [hdb']

/-- Witness for C9: a two-row table whose first pending row would be
marked failed by an upstream error, but whose second pending row's
response is a bare string, so the loop body raises `AttributeError`; the
whole tick rolls back and both rows, including the first, are unchanged. -/
theorem c9_witness :
    sampleJob ∈ [sampleJob,
      { sampleJob with id := "local-2", sora_job_id := .str "remote-2" }] ∧
    isPending { sampleJob with id := "local-2",
                               sora_job_id := .str "remote-2" } = true ∧
    pollJob (fun _ => none) 7
        (fun v => if v.strEq "remote-1" then .httpError "boom"
                  else .ok (.str "oops"))
        { sampleJob with id := "local-2", sora_job_id := .str "remote-2" } =
      .error "AttributeError" ∧
    tickDb (fun _ => none) 7
        (fun v => if v.strEq "remote-1" then .httpError "boom"
                  else .ok (.str "oops"))
        [sampleJob,
         { sampleJob with id := "local-2", sora_job_id := .str "remote-2" }] =
      [sampleJob,
       { sampleJob with id := "local-2", sora_job_id := .str "remote-2" }] :=
  ⟨List.mem_cons_self _ _, rfl, rfl,
    (c9_tick_atomicity (fun _ => none) 7
        (fun v => if v.strEq "remote-1" then .httpError "boom"
                  else .ok (.str "oops"))
        [sampleJob,
         { sampleJob with id := "local-2",
                          sora_job_id := .str "remote-2" }]).1
      ⟨{ sampleJob with id := "local-2", sora_job_id := .str "remote-2" },
        List.mem_cons_of_mem _ (List.mem_cons_self _ _), rfl,
        "AttributeError", rfl⟩⟩

/-- C8: the snapshot's create/fetch round trip cannot run as claimed:
`create_video` reads request attributes (`duration`, `aspect_ratio`,
`format`) that the declared `CreateVideoRequest` schema does not define,
`schemas.py` imports a `VideoAsset` name that `database.py` does not
define (so importing the module fails), and the response schema
`VideoJobSchema` requires `seconds`/`size`/`assets` attributes missing
from the ORM row it is built from. -/
theorem c8_round_trip_schema_mismatch :
    ("duration" ∈ createVideoAccessedRequestFields ∧
      "duration" ∉ createVideoRequestFields) ∧
    ("aspect_ratio" ∈ createVideoAccessedRequestFields ∧
      "aspect_ratio" ∉ createVideoRequestFields) ∧
    ("VideoAsset" ∈ schemasImportsFromDatabase ∧
      "VideoAsset" ∉ databaseModuleNames) ∧
    ("seconds" ∈ videoJobSchemaFields ∧ "seconds" ∉ videoJobColumns) ∧
    ("assets" ∈ videoJobSchemaFields ∧ "assets" ∉ videoJobColumns) := by
  decide

end Sora2
